import Mathlib

/-!
Shallow embedding of the publishing orchestration engine of
`src/app/api/publishing.py` (the `maya` repository), together with theorems
settling the specification claims about it.

Conventions of the embedding:
* Python `datetime` values are modelled as `Int` instants measured in minutes
  (`timedelta(minutes = m)` becomes `+ m`).
* Python dicts keyed by strings (the job store `publish_jobs` and each job's
  `platform_statuses` dict) are association lists `List (String × _)`;
  assignment `d[k] = v` is `dinsert`, which overwrites in place or appends,
  exactly matching insertion-ordered dict update.
* `uuid.uuid4()` tokens are threaded in as explicit `String` parameters (they
  are opaque fresh names for the logic).
* HTTP exceptions become the `ApiError` sum; handlers return `Except`.
* The source refers to `ContentStatus.READY`, but the enum
  `ContentStatus` of `src/app/models/content.py` has no member `READY`
  (its members are `DRAFT`, `PROCESSING`, `OPTIMIZED`, `PUBLISHED`,
  `FAILED`).  Evaluating `ContentStatus.READY` therefore raises
  `AttributeError`, which no handler catches; FastAPI turns it into an
  HTTP 500.  That outcome is modelled by the `ApiError.serverError`
  constructor, produced exactly where the source evaluates the attribute:
  `publish_immediately` at publishing.py:146 (after the content row is
  found), `schedule_publishing` at publishing.py:229 (after its time
  checks and content lookup), and `batch_publish` at publishing.py:280
  (while building its query, before anything else runs).
-/

namespace Maya

/-- Status strings used by publishing.py, both for per-platform slots
(`pending`, `scheduled`, `publishing`, `success`, `failed`) and for the
job-level `status` field (`scheduled`, `publishing`, `completed`, `failed`,
`cancelled`). The code is stringly typed, so one type covers both uses. -/
inductive PStatus where
  | pending
  | scheduled
  | publishing
  | success
  | failed
  | completed
  | cancelled
deriving DecidableEq, Repr

/-- A per-platform slot value: the dict stored under
`job["platform_statuses"][platform]`.  The same shape is the return value of
`publish_to_platform` (its result dict is stored into the slot verbatim). -/
structure Slot where
  status : PStatus
  error : Option String := none
  platform_post_id : Option String := none
  published_url : Option String := none
  published_at : Option Int := none
deriving DecidableEq, Repr

/-- Lookup in an insertion-ordered string-keyed dict (`d.get(k)` / `d[k]`). -/
def alookup {α : Type} (k : String) : List (String × α) → Option α
  | [] => none
  | (k', v) :: rest => if k = k' then some v else alookup k rest

/-- Dict assignment `d[k] = v`: overwrite in place if the key exists,
otherwise append at the end (python insertion-order semantics). -/
def dinsert {α : Type} (k : String) (v : α) : List (String × α) → List (String × α)
  | [] => [(k, v)]
  | (k', v') :: rest => if k = k' then (k, v) :: rest else (k', v') :: dinsert k v rest

/-- The key list of a dict. -/
def keys {α : Type} (l : List (String × α)) : List String := l.map Prod.fst

/-- The members of `ContentStatus` (`src/app/models/content.py`, lines
19-25): `draft`, `processing`, `optimized`, `published`, `failed`.  There is
no `ready` member; the name `ContentStatus.READY` that publishing.py
evaluates does not exist. -/
inductive ContentStatus where
  | draft
  | processing
  | optimized
  | published
  | failed
deriving DecidableEq, Repr

/-- A content row (the `Content` model fields the publishing endpoints
read). -/
structure ContentRec where
  id : Int
  owner_id : Int
  title : String
  description : String
  content_type : String
  status : ContentStatus
  created_at : Int
deriving DecidableEq, Repr

/-- A `SocialPlatform` row (only the fields publishing.py queries). -/
structure SocialPlatformRec where
  id : Int
  name : String
deriving DecidableEq, Repr

/-- A `PlatformCredentials` row (only the fields publishing.py queries). -/
structure CredentialRec where
  user_id : Int
  platform_id : Int
  is_active : Bool
deriving DecidableEq, Repr

/-- The relational store publishing.py queries through SQLAlchemy. -/
structure Db where
  contents : List ContentRec
  social_platforms : List SocialPlatformRec
  credentials : List CredentialRec
deriving DecidableEq, Repr

/-- `PublishRequest` schema. -/
structure PublishRequest where
  content_id : Int
  platforms : List String
  captions : Option (List (String × String)) := none
  tags : Option (List String) := none
  scheduled_time : Option Int := none
deriving DecidableEq, Repr

/-- `BatchPublishRequest` schema.  Note: unlike `PublishRequest`, this schema
declares no platform validator in the source. -/
structure BatchPublishRequest where
  content_ids : List Int
  platforms : List String
  scheduled_time : Option Int := none
  stagger_minutes : Option Int := none
deriving DecidableEq, Repr

/-- The HTTP error outcomes of the publishing endpoints.
`validationError` is a pydantic request-validation failure (the
`validate_platforms` validator raising `ValueError`); `serverError` is an
exception the handler does not catch (here always the `AttributeError` from
the nonexistent `ContentStatus.READY`), which FastAPI reports as HTTP 500. -/
inductive ApiError where
  | notFound (detail : String)
  | forbidden (detail : String)
  | badRequest (detail : String)
  | validationError (detail : String)
  | serverError (detail : String)
deriving DecidableEq, Repr

/-- The unhandled exception every creation path raises: evaluating
`ContentStatus.READY` on an enum with no such member. -/
def attributeErrorREADY : ApiError :=
  .serverError "AttributeError: type object ContentStatus has no attribute READY"

/-- The members of `PlatformType` (`src/app/models/social_platform.py`). -/
def validPlatforms : List String :=
  ["instagram", "twitter", "tiktok", "facebook", "linkedin", "youtube", "pinterest"]

/-- `PublishRequest.validate_platforms`: raise on the first entry not in
`PlatformType`; otherwise return the list unchanged.  (The loop body never
checks emptiness, so `[]` passes.) -/
def validate_platforms (v : List String) : Except String (List String) :=
  match v.find? (fun p => !(validPlatforms.contains p)) with
  | some p => .error ("Invalid platform: " ++ p)
  | none => .ok v

/-- A publish job record, the dict shape stored in the module-level
`publish_jobs` (were any creation path able to run to completion). -/
structure Job where
  publish_id : String
  content_id : Int
  platforms : List String
  status : PStatus
  scheduled_time : Option Int := none
  created_at : Int
  estimated_completion : Option Int := none
  platform_statuses : List (String × Slot)
  user_id : Int
  updated_at : Option Int := none
deriving DecidableEq, Repr

/-- The module-level `publish_jobs` dict (initially `{}`, publishing.py:79). -/
abbrev Store : Type := List (String × Job)

/-- `publish_to_platform(content_id, platform, caption, user_id, db)`: the
simulated per-platform publish call.  It looks up the `SocialPlatform` row by
name, then the caller's active credential for it; with no active credential it
returns a failed result dict without producing any post.  On success it
fabricates `platform_post_id` and `published_url` from a fresh uuid hex
(`hex` parameter).  `content_id` and `caption` do not influence the outcome in
the source, so they are omitted here. -/
def publish_to_platform (db : Db) (platform : String) (user_id : Int)
    (hex : String) (now : Int) : Slot :=
  match db.social_platforms.find? (fun sp => sp.name == platform) with
  | none => { status := .failed, error := some ("Platform " ++ platform ++ " not found") }
  | some sp =>
    match db.credentials.find?
        (fun c => c.user_id == user_id && c.platform_id == sp.id && c.is_active) with
    | none => { status := .failed, error := some ("No active credentials for " ++ platform) }
    | some _ =>
      let post_id := platform ++ "_" ++ hex
      { status := .success, platform_post_id := some post_id,
        published_url := some ("https://" ++ platform ++ ".com/post/" ++ post_id),
        published_at := some now }

/-- Whether a slot status is terminal in the sense of the aggregation code:
`status["status"] in ["success", "failed"]`. -/
def Slot.isTerminal (s : Slot) : Bool :=
  s.status == .success || s.status == .failed

/-- First half of `publish_to_platform_background` (publishing.py:464-466):
mark the slot `{"status": "publishing"}` before awaiting the platform call. -/
def bg_mark_publishing (store : Store) (pid platform : String) : Store :=
  match alookup pid store with
  | none => store
  | some job =>
      dinsert pid
        { job with platform_statuses :=
            dinsert platform { status := .publishing } job.platform_statuses }
        store

/-- The job-level status recomputation done at the end of
`publish_to_platform_background` (publishing.py:476-484): when every slot is
terminal, `completed` (at least one success) or `failed` (none); otherwise the
stored status is left as it was. -/
def aggStatus (slots : List (String × Slot)) (old : PStatus) : PStatus :=
  if slots.all (fun kv => kv.2.isTerminal) then
    if slots.any (fun kv => kv.2.status == .success) then PStatus.completed
    else PStatus.failed
  else old

/-- The job record after the second half of `publish_to_platform_background`
stores `result` into the platform's slot. -/
def appliedJob (j : Job) (platform : String) (result : Slot) (now : Int) : Job :=
  { j with
    platform_statuses := dinsert platform result j.platform_statuses
    updated_at := some now
    status := aggStatus (dinsert platform result j.platform_statuses) j.status }

/-- Second half of `publish_to_platform_background` (publishing.py:472-484):
store the result dict into the slot, stamp `updated_at`, and when every slot
is terminal set the job-level status to `completed` (at least one success) or
`failed` (none). -/
def bg_apply_result (store : Store) (pid platform : String) (result : Slot)
    (now : Int) : Store :=
  match alookup pid store with
  | none => store
  | some job => dinsert pid (appliedJob job platform result now) store

/-- Number of terminal slots of a slot map (the `completed_platforms` sum of
publishing.py:361-364). -/
def terminalCount (slots : List (String × Slot)) : Nat :=
  (slots.filter (fun kv => kv.2.isTerminal)).length

/-! ### Exact model of the float expression of publishing.py:365

`int((completed_platforms / total_platforms) * 100)` runs in IEEE-754
binary64: `/` is true division correctly rounded to nearest (ties to even),
`* 100` is a second correctly rounded operation, and `int` truncates toward
zero.  It is NOT the integer floor `100 * completed / total`: for example
`int((29 / 100) * 100) = 28` in CPython while `100 * 29 / 100 = 29`.  The
following definitions compute the binary64 result exactly with natural-number
arithmetic (the operands here are small positive integers and all quotients
lie in the normal range of binary64, where a 53-bit significand with
round-to-nearest-even is the full semantics of the two operations). -/

/-- Floor of the base-2 logarithm (`0` for `0` and `1`), by fuel-bounded
halving; the fuel `n` always suffices since `log2 n ≤ n`. -/
def log2fuel : Nat → Nat → Nat
  | 0, _ => 0
  | fuel + 1, n => if 2 ≤ n then log2fuel fuel (n / 2) + 1 else 0

def log2n (n : Nat) : Nat := log2fuel n n

/-- Round-to-nearest-even of the rational `a / b` (`b > 0`) to an integer. -/
def rneDiv (a b : Nat) : Nat :=
  let q := a / b
  let r := a % b
  if 2 * r < b then q
  else if b < 2 * r then q + 1
  else if q % 2 = 0 then q else q + 1

/-- `⌊(c / t) * 2 ^ s⌋` for a signed shift `s`. -/
def floorScaled (c t : Nat) (s : Int) : Nat :=
  if 0 ≤ s then c * 2 ^ s.toNat / t else c / (t * 2 ^ (-s).toNat)

/-- Round-to-nearest-even of `(c / t) * 2 ^ s` for a signed shift `s`. -/
def rneScaled (c t : Nat) (s : Int) : Nat :=
  if 0 ≤ s then rneDiv (c * 2 ^ s.toNat) t else rneDiv c (t * 2 ^ (-s).toNat)

/-- The binary64 value nearest to `c / t` (`0 < c`, `0 < t`), as a dyadic
pair `(m, s)` denoting `m * 2 ^ (-s)`, with `2 ^ 52 ≤ m ≤ 2 ^ 53`: the shift
`s` is chosen so that the integer part of `(c / t) * 2 ^ s` has exactly 53
bits, and rounding that scaled value to the nearest integer (ties to even) is
then exactly rounding `c / t` to 53 significant bits. -/
def fdiv64 (c t : Nat) : Nat × Int :=
  let s0 : Int := 52 + (log2n t : Int) - (log2n c : Int)
  let s : Int := if floorScaled c t s0 < 2 ^ 52 then s0 + 1 else s0
  (rneScaled c t s, s)

/-- Binary64 multiplication of the dyadic `m * 2 ^ (-s)` by the exact
constant `100`, followed by `int(...)` truncation (the value is nonnegative,
so truncation is floor).  The exact product has significand `m * 100`, which
the multiply re-rounds to 53 significant bits with round-to-nearest-even
(dropping its `d` excess low bits); a carry into a 54th bit leaves the value
exact, so no renormalisation is needed before truncating. -/
def fmul100trunc (m : Nat) (s : Int) : Nat :=
  let mm := m * 100
  let b := log2n mm + 1
  let d := b - 53
  let m2 := rneDiv mm (2 ^ d)
  let e : Int := (d : Int) - s
  if 0 ≤ e then m2 * 2 ^ e.toNat else m2 / 2 ^ (-e).toNat

/-- `int((completed / total) * 100) if total > 0 else 0` with CPython float
semantics (`0 / t` and the guard both give `0` exactly). -/
def pyPercentage (completed total : Nat) : Nat :=
  if total = 0 then 0
  else if completed = 0 then 0
  else
    let p := fdiv64 completed total
    fmul100trunc p.1 p.2

/-- The completion percentage computed by `get_publish_status`
(publishing.py:359-365): numerator the number of terminal entries of the slot
dict, denominator `len(job["platforms"])` (the request list). -/
def completionPercentage (job : Job) : Nat :=
  pyPercentage (terminalCount job.platform_statuses) job.platforms.length

/-- `PublishStatusResponse` as returned by `get_publish_status`. -/
structure PublishStatusResponse where
  publish_id : String
  content_id : Int
  overall_status : PStatus
  platform_statuses : List (String × Slot)
  created_at : Int
  updated_at : Int
  completion_percentage : Nat
deriving DecidableEq, Repr

/-- `GET /status/{publish_id}` (publishing.py:338-375). -/
def get_publish_status (store : Store) (pid : String) (uid : Int) :
    Except ApiError PublishStatusResponse :=
  match alookup pid store with
  | none => .error (.notFound "Publish job not found")
  | some job =>
    if job.user_id ≠ uid then .error (.forbidden "Access denied")
    else
      .ok { publish_id := pid
            content_id := job.content_id
            overall_status := job.status
            platform_statuses := job.platform_statuses
            created_at := job.created_at
            updated_at := job.updated_at.getD job.created_at
            completion_percentage := completionPercentage job }

/-- `DELETE /cancel/{publish_id}` (publishing.py:378-420): refuse unless the
job-level status is `scheduled` or `pending`; on success set only the
job-level status (and `updated_at`) — the slot map is not touched. -/
def cancel_publishing (store : Store) (pid : String) (uid : Int) (now : Int) :
    Except ApiError Store :=
  match alookup pid store with
  | none => .error (.notFound "Publish job not found")
  | some job =>
    if job.user_id ≠ uid then .error (.forbidden "Access denied")
    else if job.status = .scheduled ∨ job.status = .pending then
      .ok (dinsert pid { job with status := .cancelled, updated_at := some now } store)
    else .error (.badRequest "Cannot cancel job that is already in progress or completed")

/-- One queued `publish_to_platform_background` invocation, with a program
counter: `pc = 0` not yet started, `pc = 1` slot marked publishing and the
platform call in flight, `pc = 2` finished. -/
structure BgTask where
  pid : String
  platform : String
  content_id : Int
  caption : String
  user_id : Int
  pc : Nat := 0
deriving DecidableEq, Repr

/-- The (pid, platform) key identifying a background task's slot. -/
def BgTask.key (t : BgTask) : String × String := (t.pid, t.platform)

/-- The ownership filter `Content.id == content_id, Content.owner_id == user`
of the immediate and schedule handlers. -/
def contentFilter (cid uid : Int) (c : ContentRec) : Bool :=
  c.id == cid && c.owner_id == uid

/-- `POST /immediate` (publishing.py:124-193).  After request validation the
handler queries the content row by id and owner; if none exists it raises
404.  If a row IS found, the very next statement (publishing.py:146) compares
`content.status != ContentStatus.READY`, and evaluating
`ContentStatus.READY` raises `AttributeError` — the enum has no such member —
so the handler dies with HTTP 500 before creating the job, queuing any
background task, or touching `content.status`.  No call ever reaches the
success branch; its result type records the shape the dead code would have
returned (mutated db, new store, queued tasks, created job). -/
def publish_immediately (req : PublishRequest) (uid : Int) (db : Db) (store : Store) :
    Except ApiError (Db × Store × List BgTask × Job) :=
  match validate_platforms req.platforms with
  | .error m => .error (.validationError m)
  | .ok _ =>
    match db.contents.find? (contentFilter req.content_id uid) with
    | none => .error (.notFound "Content not found")
    | some _ => .error attributeErrorREADY

/-- `POST /schedule` (publishing.py:196-262).  The two scheduled-time checks
(publishing.py:205-215) run before the content query, so a missing or
non-future `scheduled_time` is still rejected with 400, and a missing content
row with 404; but whenever the row is found the comparison at
publishing.py:229 evaluates `ContentStatus.READY` and the handler dies with
HTTP 500 before creating any job. -/
def schedule_publishing (req : PublishRequest) (uid : Int) (db : Db) (store : Store)
    (now : Int) : Except ApiError (Store × Job) :=
  match validate_platforms req.platforms with
  | .error m => .error (.validationError m)
  | .ok _ =>
    match req.scheduled_time with
    | none => .error (.badRequest "Scheduled time is required for scheduling")
    | some t =>
      if t ≤ now then .error (.badRequest "Scheduled time must be in the future")
      else
        match db.contents.find? (contentFilter req.content_id uid) with
        | none => .error (.notFound "Content not found")
        | some _ => .error attributeErrorREADY

/-- `POST /batch` (publishing.py:265-335).  `BatchPublishRequest` declares no
validator, so the handler body is always entered; its first statement builds
the query filter `Content.status == ContentStatus.READY`
(publishing.py:280), and evaluating `ContentStatus.READY` raises
`AttributeError` before the query runs — before the count check, the stagger
computation, and the creation loop.  Every batch call therefore fails with
HTTP 500 and creates nothing, regardless of the request. -/
def batch_publish (req : BatchPublishRequest) (uid : Int) (db : Db) (store : Store)
    (now : Int) : Except ApiError (Store × List Job × List BgTask) :=
  .error attributeErrorREADY

/-! ### The concurrent system: store + in-flight background tasks

Each queued `publish_to_platform_background` call is a task with a program
counter; the scheduler may interleave task halves, cancellations and creation
calls arbitrarily.  Only SUCCESSFUL operations change the state, so the
creation constructors require the handler to return `.ok` — which, as proved
below, never happens. -/

structure Sys where
  db : Db
  store : Store
  tasks : List BgTask

/-- One atomic transition of the publishing subsystem. -/
inductive Step : Sys → Sys → Prop where
  | bg_mark (s : Sys) (i : Nat) (h : i < s.tasks.length)
      (hpc : (s.tasks.get ⟨i, h⟩).pc = 0) :
      Step s ⟨s.db,
        bg_mark_publishing s.store (s.tasks.get ⟨i, h⟩).pid (s.tasks.get ⟨i, h⟩).platform,
        s.tasks.set i { s.tasks.get ⟨i, h⟩ with pc := 1 }⟩
  | bg_finish (s : Sys) (i : Nat) (h : i < s.tasks.length)
      (hpc : (s.tasks.get ⟨i, h⟩).pc = 1) (hex : String) (now : Int) :
      Step s ⟨s.db,
        bg_apply_result s.store (s.tasks.get ⟨i, h⟩).pid (s.tasks.get ⟨i, h⟩).platform
          (publish_to_platform s.db (s.tasks.get ⟨i, h⟩).platform
            (s.tasks.get ⟨i, h⟩).user_id hex now) now,
        s.tasks.set i { s.tasks.get ⟨i, h⟩ with pc := 2 }⟩
  | cancel (s : Sys) (pid : String) (uid now : Int) (store' : Store)
      (h : cancel_publishing s.store pid uid now = .ok store') :
      Step s ⟨s.db, store', s.tasks⟩
  | create_imm (s : Sys) (req : PublishRequest) (uid : Int)
      (db' : Db) (store' : Store) (tasks' : List BgTask) (job : Job)
      (h : publish_immediately req uid s.db s.store = .ok (db', store', tasks', job)) :
      Step s ⟨db', store', s.tasks ++ tasks'⟩
  | create_sched (s : Sys) (req : PublishRequest) (uid now : Int)
      (store' : Store) (job : Job)
      (h : schedule_publishing req uid s.db s.store now = .ok (store', job)) :
      Step s ⟨s.db, store', s.tasks⟩
  | create_batch (s : Sys) (req : BatchPublishRequest) (uid now : Int)
      (store' : Store) (jobs : List Job) (tasks' : List BgTask)
      (h : batch_publish req uid s.db s.store now = .ok (store', jobs, tasks')) :
      Step s ⟨s.db, store', s.tasks ++ tasks'⟩

/-- Reachability: finitely many interleaved transitions. -/
def Reach : Sys → Sys → Prop := Relation.ReflTransGen Step

/-- The status of the slot of `(pid, platform)`, when both exist. -/
def slotStatus (store : Store) (pid platform : String) : Option PStatus :=
  match alookup pid store with
  | none => none
  | some job => (alookup platform job.platform_statuses).map Slot.status

/-! ### Dictionary lemmas -/

theorem alookup_dinsert_self {α : Type} (k : String) (v : α) (l : List (String × α)) :
    alookup k (dinsert k v l) = some v := by
  induction l with
  | nil => simp [dinsert, alookup]
  | cons kv rest ih =>
    obtain ⟨k', v'⟩ := kv
    by_cases h : k = k'
    · simp [dinsert, h, alookup]
    · simp [dinsert, h, alookup, ih]

theorem alookup_dinsert_ne {α : Type} {q k : String} (h : q ≠ k) (v : α)
    (l : List (String × α)) : alookup q (dinsert k v l) = alookup q l := by
  induction l with
  | nil => simp [dinsert, alookup, h]
  | cons kv rest ih =>
    obtain ⟨k', v'⟩ := kv
    by_cases hk : k = k'
    · subst hk
      simp [dinsert, alookup, h, ih]
    · by_cases hq : q = k'
      · simp [dinsert, alookup, hk, hq]
      · simp [dinsert, alookup, hk, hq, ih]

theorem alookup_dinsert {α : Type} (q k : String) (v : α) (l : List (String × α)) :
    alookup q (dinsert k v l) = if q = k then some v else alookup q l := by
  by_cases h : q = k
  · rw [if_pos h, h, alookup_dinsert_self]
  · rw [if_neg h, alookup_dinsert_ne h]

/-- The slot status map of `dinsert` at the job level. -/
theorem slotStatus_dinsert_job {store : Store} (pid : String) (j₂ : Job) (q r : String) :
    slotStatus (dinsert pid j₂ store) q r =
      if q = pid then (alookup r j₂.platform_statuses).map Slot.status
      else slotStatus store q r := by
  unfold slotStatus
  rw [alookup_dinsert]
  by_cases h : q = pid <;> simp [h]

/-- The slot value written by the first half of a background task. -/
def pubSlot : Slot := { status := .publishing }

theorem bg_mark_eq {store : Store} {pid : String} {j : Job}
    (hj : alookup pid store = some j) (platform : String) :
    bg_mark_publishing store pid platform =
      dinsert pid { j with platform_statuses := dinsert platform pubSlot j.platform_statuses } store := by
  unfold bg_mark_publishing
  rw [hj]
  rfl

theorem bg_apply_eq {store : Store} {pid : String} {j : Job}
    (hj : alookup pid store = some j) (platform : String) (result : Slot) (now : Int) :
    bg_apply_result store pid platform result now =
      dinsert pid (appliedJob j platform result now) store := by
  unfold bg_apply_result
  rw [hj]

/-! ### No creation path ever succeeds -/

/-- `publish_immediately` never returns success: after validation it either
fails to find the content row (404) or raises the `AttributeError` (500). -/
theorem publish_immediately_errors (req : PublishRequest) (uid : Int) (db : Db)
    (store : Store) :
    ∃ e, publish_immediately req uid db store = .error e := by
  unfold publish_immediately
  cases validate_platforms req.platforms with
  | error m => exact ⟨_, rfl⟩
  | ok l =>
    cases db.contents.find? (contentFilter req.content_id uid) with
    | none => exact ⟨_, rfl⟩
    | some c => exact ⟨_, rfl⟩

/-- `schedule_publishing` never returns success either: the reachable
outcomes are the validation error, the two scheduled-time rejections, the
404, and the `AttributeError` (500). -/
theorem schedule_publishing_errors (req : PublishRequest) (uid : Int) (db : Db)
    (store : Store) (now : Int) :
    ∃ e, schedule_publishing req uid db store now = .error e := by
  cases hv : validate_platforms req.platforms with
  | error m =>
    refine ⟨.validationError m, ?_⟩
    simp only [schedule_publishing, hv]
  | ok l =>
    cases hst : req.scheduled_time with
    | none =>
      refine ⟨.badRequest "Scheduled time is required for scheduling", ?_⟩
      simp only [schedule_publishing, hv, hst]
    | some t =>
      by_cases ht : t ≤ now
      · refine ⟨.badRequest "Scheduled time must be in the future", ?_⟩
        simp only [schedule_publishing, hv, hst]
        rw [if_pos ht]
      · cases hf : db.contents.find? (contentFilter req.content_id uid) with
        | none =>
          refine ⟨.notFound "Content not found", ?_⟩
          simp only [schedule_publishing, hv, hst]
          rw [if_neg ht, hf]
        | some c =>
          refine ⟨attributeErrorREADY, ?_⟩
          simp only [schedule_publishing, hv, hst]
          rw [if_neg ht, hf]

/-- No transition leaves the empty state: background steps need a queued
task, cancel needs a stored job, and every creation handler returns an
error. -/
theorem step_empty {s s' : Sys} (hstep : Step s s') (hstore : s.store = [])
    (htasks : s.tasks = []) : False := by
  cases hstep with
  | bg_mark i h hpc =>
    rw [htasks] at h
    simp at h
  | bg_finish i h hpc hex now =>
    rw [htasks] at h
    simp at h
  | cancel pid uid now store' h =>
    rw [hstore] at h
    simp [cancel_publishing, alookup] at h
  | create_imm req uid db' store' tasks' job h =>
    obtain ⟨e, he⟩ := publish_immediately_errors req uid s.db s.store
    rw [he] at h
    exact Except.noConfusion h
  | create_sched req uid now store' job h =>
    obtain ⟨e, he⟩ := schedule_publishing_errors req uid s.db s.store now
    rw [he] at h
    exact Except.noConfusion h
  | create_batch req uid now store' jobs tasks' h =>
    have hb : batch_publish req uid s.db s.store now = .error attributeErrorREADY := rfl
    rw [hb] at h
    exact Except.noConfusion h

/-- The central reachability fact: starting from the module-load state
(`publish_jobs = {}`, no queued task), the job store and the task queue stay
empty forever — no job is ever created, so none is ever dispatched,
completed, queried or cancelled. -/
theorem reach_empty {db : Db} {s : Sys} (hr : Reach ⟨db, [], []⟩ s) :
    s.store = [] ∧ s.tasks = [] := by
  induction hr with
  | refl => exact ⟨rfl, rfl⟩
  | tail _hr hstep ih => exact (step_empty hstep ih.1 ih.2).elim

/-! ### Fixtures -/

/-- A content row (id 42, owner 1).  Its status is `optimized`; no row can
carry the `READY` status the handlers look for, because that member does not
exist in `ContentStatus`. -/
def exContent : ContentRec :=
  { id := 42, owner_id := 1, title := "t", description := "d",
    content_type := "image", status := .optimized, created_at := 0 }

/-- Example database: twitter and instagram platform rows; user 1 has an
active twitter credential and no instagram credential. -/
def exDb : Db :=
  { contents := [exContent]
    social_platforms := [⟨1, "twitter"⟩, ⟨2, "instagram"⟩]
    credentials := [⟨1, 1, true⟩] }

/-- An immediate publish request for the existing content row 42. -/
def exImmReq : PublishRequest :=
  { content_id := 42
    platforms := ["twitter"] }

/-- A schedule request whose `scheduled_time` lies in the past. -/
def exSchedPastReq : PublishRequest :=
  { content_id := 42
    platforms := ["twitter"]
    scheduled_time := some 0 }

/-- A batch request with an unknown platform name and a past scheduled time:
the batch path validates neither. -/
def exBatchUnknownReq : BatchPublishRequest :=
  { content_ids := [42]
    platforms := ["myspace"]
    scheduled_time := some 0 }

/-- The §8 stagger scenario: five items, ten-minute stagger, base time `T`. -/
def exStaggerReq (T : Int) : BatchPublishRequest :=
  { content_ids := [1, 2, 3, 4, 5]
    platforms := ["twitter"]
    scheduled_time := some T
    stagger_minutes := some 10 }

/-- A stored job shaped like an immediate-publish job: job-level status
`publishing` from creation while every slot is still `pending`. -/
def exC3Job : Job :=
  { publish_id := "J7"
    content_id := 42
    platforms := ["twitter"]
    status := .publishing
    created_at := 0
    platform_statuses := [("twitter", { status := .pending })]
    user_id := 1 }

def exC3Store : Store := [("J7", exC3Job)]

/-- A stored job with a single pending instagram slot, owned by user 1 (who
has no instagram credential in `exDb`). -/
def exInstaJob : Job :=
  { publish_id := "J3"
    content_id := 42
    platforms := ["instagram"]
    status := .publishing
    created_at := 0
    platform_statuses := [("instagram", { status := .pending })]
    user_id := 1 }

def exInstaStore : Store := [("J3", exInstaJob)]

/-! ### Claim C1 — stored status vs recomputation -/

/-- C1: the claim compares the reported overall status with the §4.3
aggregation of the slot map over a job's lifetime.  In the program no job
ever has a lifetime: from the module-load state every reachable state has an
empty job store (every creation handler fails, at the latest with the
`AttributeError` from the nonexistent `ContentStatus.READY`), so
`get_publish_status` answers 404 for every job id and every caller, and no
overall status is ever reported at all. -/
theorem C1_theorem (db : Db) (s : Sys) (hr : Reach ⟨db, [], []⟩ s)
    (pid : String) (uid : Int) :
    get_publish_status s.store pid uid = .error (.notFound "Publish job not found") := by
  rw [(reach_empty hr).1]
  rfl

/-- Witness for C1: the initial state itself. -/
theorem C1_theorem_witness :
    get_publish_status ([] : Store) "J1" 1 = .error (.notFound "Publish job not found") :=
  C1_theorem exDb ⟨exDb, [], []⟩ Relation.ReflTransGen.refl "J1" 1

/-! ### Claim C2 — successful cancel -/

/-- C2: the claim describes the state after a successful cancel.  No cancel
ever succeeds: every reachable state has an empty job store, so
`cancel_publishing` answers 404 for every job id, caller and time.  (And the
cancel code itself, publishing.py:406-407, writes only the job-level status
and `updated_at`; it never touches a slot.) -/
theorem C2_theorem (db : Db) (s : Sys) (hr : Reach ⟨db, [], []⟩ s)
    (pid : String) (uid now : Int) :
    cancel_publishing s.store pid uid now = .error (.notFound "Publish job not found") := by
  rw [(reach_empty hr).1]
  rfl

/-- Witness for C2: the initial state itself. -/
theorem C2_theorem_witness :
    cancel_publishing ([] : Store) "J2" 1 5 = .error (.notFound "Publish job not found") :=
  C2_theorem exDb ⟨exDb, [], []⟩ Relation.ReflTransGen.refl "J2" 1 5

/-! ### Claim C3 — when cancel is allowed -/

/-- C3: the claim says cancel succeeds exactly when every SLOT is still
pending or scheduled.  The code decides from the stored job-level status
alone (publishing.py:399): for a stored job owned by the caller, cancel
succeeds if and only if `job["status"]` is `scheduled` or `pending` — the
slot map is never consulted.  (An immediate-publish job would carry status
`publishing` from creation while all its slots are pending, so the claimed
equivalence would also fail on any such job; no job is ever stored at all in
the real program.) -/
theorem C3_theorem (store : Store) (pid : String) (uid now : Int) (job : Job)
    (hjob : alookup pid store = some job) (huid : job.user_id = uid) :
    (∃ store', cancel_publishing store pid uid now = .ok store') ↔
      (job.status = .scheduled ∨ job.status = .pending) := by
  constructor
  · rintro ⟨store', h⟩
    simp only [cancel_publishing, hjob] at h
    by_cases hs : job.status = .scheduled ∨ job.status = .pending
    · exact hs
    · rw [if_neg (not_not.mpr huid), if_neg hs] at h
      exact Except.noConfusion h
  · intro hs
    refine ⟨dinsert pid { job with status := .cancelled, updated_at := some now } store, ?_⟩
    simp only [cancel_publishing, hjob]
    rw [if_neg (not_not.mpr huid), if_pos hs]

/-- Witness for C3: an all-pending-slots job whose stored status is
`publishing` (the shape immediate creation would store). -/
theorem C3_theorem_witness :
    (∃ store', cancel_publishing exC3Store "J7" 1 0 = .ok store') ↔
      (exC3Job.status = .scheduled ∨ exC3Job.status = .pending) :=
  C3_theorem exC3Store "J7" 1 0 exC3Job rfl rfl

/-! ### Claim C4 — missing credentials -/

/-- C4: the claim says a credential-less slot never enters `publishing`.  In
the dispatch code the opposite order is hard-wired: with no active credential
for the platform, the simulated platform call does return a failed result
with error `No active credentials for {platform}` and no post — but
`publish_to_platform_background` (publishing.py:464-466) first writes
`publishing` into the slot, and only the later result write makes it
`failed`.  (In the real program this code never runs at all: no background
task is ever queued because no creation succeeds.) -/
theorem C4_theorem {db : Db} {platform : String} {uid : Int} {sp : SocialPlatformRec}
    (hsp : db.social_platforms.find? (fun q => q.name == platform) = some sp)
    (hcred : db.credentials.find?
      (fun c => c.user_id == uid && c.platform_id == sp.id && c.is_active) = none)
    (hex : String) (now : Int) :
    publish_to_platform db platform uid hex now =
      { status := .failed, error := some ("No active credentials for " ++ platform) } ∧
    ∀ (store : Store) (pid : String) (j : Job), alookup pid store = some j →
      slotStatus (bg_mark_publishing store pid platform) pid platform = some .publishing ∧
      slotStatus (bg_apply_result (bg_mark_publishing store pid platform) pid platform
        (publish_to_platform db platform uid hex now) now) pid platform = some .failed := by
  have hpub : publish_to_platform db platform uid hex now =
      { status := .failed, error := some ("No active credentials for " ++ platform) } := by
    simp only [publish_to_platform, hsp, hcred]
  refine ⟨hpub, ?_⟩
  intro store pid j hj
  have hmark := bg_mark_eq hj platform
  have hj2 : alookup pid (bg_mark_publishing store pid platform) =
      some { j with platform_statuses := dinsert platform pubSlot j.platform_statuses } := by
    rw [hmark]
    exact alookup_dinsert_self _ _ _
  constructor
  · rw [hmark, slotStatus_dinsert_job, if_pos rfl]
    show (alookup platform (dinsert platform pubSlot j.platform_statuses)).map Slot.status = _
    rw [alookup_dinsert_self]
    rfl
  · rw [bg_apply_eq hj2, slotStatus_dinsert_job, if_pos rfl]
    show (alookup platform (dinsert platform (publish_to_platform db platform uid hex now)
      (dinsert platform pubSlot j.platform_statuses))).map Slot.status = _
    rw [alookup_dinsert_self, hpub]
    rfl

/-- Witness for C4: the instagram slot of the stored job "J3". -/
theorem C4_theorem_witness :
    publish_to_platform exDb "instagram" 1 "h" 2 =
      { status := .failed, error := some "No active credentials for instagram" } ∧
    slotStatus (bg_mark_publishing exInstaStore "J3" "instagram") "J3" "instagram" =
      some .publishing := by
  have h := @C4_theorem exDb "instagram" 1 ⟨2, "instagram"⟩ rfl rfl "h" 2
  exact ⟨h.1, (h.2 exInstaStore "J3" exInstaJob rfl).1⟩

/-! ### Claim C5 — terminal aggregation -/

/-- C5: the claim is about a job all of whose slots are terminal.  No
reachable state stores any job under any id, so no job ever reaches the
all-slots-terminal condition and the completed/failed aggregation of
publishing.py:476-484 never executes: every creation handler fails, at the
latest with the `AttributeError` from the nonexistent
`ContentStatus.READY`. -/
theorem C5_theorem (db : Db) (s : Sys) (hr : Reach ⟨db, [], []⟩ s) (pid : String) :
    alookup pid s.store = none := by
  rw [(reach_empty hr).1]
  rfl

/-- Witness for C5: the initial state itself. -/
theorem C5_theorem_witness : alookup "J5" ([] : Store) = (none : Option Job) :=
  C5_theorem exDb ⟨exDb, [], []⟩ Relation.ReflTransGen.refl "J5"

/-! ### Claim C6 — completion percentage -/

/-- C6: the claim constrains the completion percentage over a job's
lifetime.  No job ever has one: every reachable state of the system keeps
both the job store and the background-task queue empty, so no status
response — and no percentage — is ever produced.  (The percentage code of
publishing.py:365 is also not the claimed floor: it truncates a double
product, e.g. 29 terminal slots of 100 give 28, not 29, and its denominator
is the raw request list length; but that code is unreachable.) -/
theorem C6_theorem (db : Db) (s : Sys) (hr : Reach ⟨db, [], []⟩ s) :
    s.store = [] ∧ s.tasks = [] :=
  reach_empty hr

/-- Witness for C6: the initial state itself. -/
theorem C6_theorem_witness :
    (Sys.mk exDb [] []).store = [] ∧ (Sys.mk exDb [] []).tasks = [] :=
  C6_theorem exDb ⟨exDb, [], []⟩ Relation.ReflTransGen.refl

/-! ### Claim C7 — staggered batch times -/

/-- C7: the claim describes the effective publish times of a staggered
batch.  No batch item ever receives any effective time: on the §8 scenario
(five items, ten-minute stagger, any base time `T`) `batch_publish` fails
with the `AttributeError` server error raised while building its content
query (publishing.py:280), before the stagger computation at
publishing.py:293-296 could run, and creates no job. -/
theorem C7_theorem (db : Db) (store : Store) (uid now T : Int) :
    batch_publish (exStaggerReq T) uid db store now = .error attributeErrorREADY :=
  rfl

/-! ### Claim C8 — creation-time validation -/

/-- C8 counterexample: the empty platform list passes the only platform
validator in the code, and a batch request carrying both an unknown platform
and a past scheduled time is not rejected with a validation error — it dies
with the unhandled `AttributeError` (HTTP 500) instead.  Both refute "every
job-creation operation fails with `validation_error` on unknown platform,
empty platform list, or past scheduled_time". -/
theorem C8_counterexample :
    validate_platforms [] = .ok [] ∧
    batch_publish exBatchUnknownReq 1 exDb [] 100 = .error attributeErrorREADY :=
  ⟨rfl, rfl⟩

/-- C8 (amended): platform-name validation exists only in the
`PublishRequest` schema used by the immediate and schedule paths — it
rejects a list containing an unknown platform but accepts the empty list;
the scheduled-time strictness check runs only on the schedule path, which
rejects `scheduled_time ≤ now` with a 400 before looking at the content
table; the batch path validates neither platforms nor scheduled time and
always fails with the unhandled `AttributeError` (HTTP 500), creating no
job. -/
theorem C8_theorem (db : Db) (store : Store) (req : PublishRequest)
    (breq : BatchPublishRequest) (uid now t : Int)
    (hok : validate_platforms req.platforms = .ok req.platforms)
    (ht : req.scheduled_time = some t) (hpast : t ≤ now) :
    validate_platforms [] = .ok [] ∧
    (∀ ps : List String, (∃ p ∈ ps, p ∉ validPlatforms) →
      ∃ m, validate_platforms ps = .error m) ∧
    schedule_publishing req uid db store now =
      .error (.badRequest "Scheduled time must be in the future") ∧
    batch_publish breq uid db store now = .error attributeErrorREADY := by
  refine ⟨rfl, ?_, ?_, rfl⟩
  · intro ps hex
    unfold validate_platforms
    cases hfind : ps.find? (fun p => !(validPlatforms.contains p)) with
    | some p => exact ⟨_, rfl⟩
    | none =>
      exfalso
      obtain ⟨p, hp, hnp⟩ := hex
      have hcontains := List.find?_eq_none.mp hfind p hp
      simp at hcontains
      exact hnp hcontains
  · simp only [schedule_publishing, hok, ht]
    rw [if_pos hpast]

/-- Witness for C8: a valid single-platform schedule request with
`scheduled_time` 0 at time 100, and the unknown-platform batch request. -/
theorem C8_theorem_witness :
    validate_platforms [] = .ok [] ∧
    (∀ ps : List String, (∃ p ∈ ps, p ∉ validPlatforms) →
      ∃ m, validate_platforms ps = .error m) ∧
    schedule_publishing exSchedPastReq 1 exDb [] 100 =
      .error (.badRequest "Scheduled time must be in the future") ∧
    batch_publish exBatchUnknownReq 1 exDb [] 100 = .error attributeErrorREADY :=
  C8_theorem exDb [] exSchedPastReq exBatchUnknownReq 1 100 0 rfl rfl (by decide)

/-! ### Claim C9 — batch atomicity -/

/-- C9: the claim says a batch with a non-ready item fails with `not_ready`
and creates nothing.  The code indeed creates nothing — but for every batch
request whatsoever, ready or not: the handler raises the unhandled
`AttributeError` (HTTP 500) while building its content query
(publishing.py:280), so the advertised `not_ready` rejection (the 400 of
publishing.py:283-287) is unreachable dead code. -/
theorem C9_theorem (req : BatchPublishRequest) (uid : Int) (db : Db) (store : Store)
    (now : Int) :
    batch_publish req uid db store now = .error attributeErrorREADY :=
  rfl

/-! ### Claim C10 — content mutation on immediate publish -/

/-- C10: the claim describes a successful immediate publish flipping the
content row from READY to PROCESSING.  `READY` is not a member of
`ContentStatus`, so the precondition is not even expressible; concretely,
whenever the content row referenced by a validated request exists and is
owned by the caller, `publish_immediately` dies at publishing.py:146 with
the `AttributeError` server error — before the job is built, before any
background task is queued, and before the `content.status = PROCESSING`
write at publishing.py:182.  No content row is ever mutated and no success
response is ever returned. -/
theorem C10_theorem (db : Db) (store : Store) (req : PublishRequest) (uid : Int)
    (c : ContentRec)
    (hval : validate_platforms req.platforms = .ok req.platforms)
    (hfound : db.contents.find? (contentFilter req.content_id uid) = some c) :
    publish_immediately req uid db store = .error attributeErrorREADY := by
  simp only [publish_immediately, hval, hfound]

/-- Witness for C10: content row 42 exists and is owned by caller 1. -/
theorem C10_theorem_witness :
    publish_immediately exImmReq 1 exDb [] = .error attributeErrorREADY :=
  C10_theorem exDb [] exImmReq 1 exContent rfl rfl

end Maya
